import Mathlib

/-!
Shallow embedding of the football-prediction application (src/app.py) and
verification of the frozen claims about it.

Conventions of the embedding:
* Python ints are `ℤ` (goal counts, timestamps in seconds), provider team ids
  are `ℕ`, Python floats arising from the statistics pipeline are `ℚ`
  (every operation involved is field arithmetic plus rounding); the Poisson
  probability formulas of `scipy.stats.poisson` are modelled over `ℝ`.
* Network fetches are parameters: a function `fetch : ℕ → List Match`
  standing for `get_team_matches`, and an explicit `Option` for the cache
  file contents.
* Python's `round(x, n)` rounds half to even; `roundHalfEven` reproduces it.
* Python's `max(d, key=d.get)` over a 3-entry dict iterates insertion order
  and keeps the current entry unless a later value is strictly greater;
  `pyMax3` reproduces exactly that.
-/

namespace App

/-- One fetched match record, after the `or 0` null-coercion of
`get_team_stats`: provider ids of the two sides and the four goal counts
(full-time and half-time, home and away). -/
structure Match where
  homeId : ℕ
  awayId : ℕ
  ftHome : ℤ
  ftAway : ℤ
  htHome : ℤ
  htAway : ℤ
deriving DecidableEq

/-- The statistics profile returned by `get_team_stats`. -/
structure TeamStats where
  goals_avg_scored : ℚ
  goals_avg_conceded : ℚ
  half_time_win_rate : ℚ
  second_half_win_rate : ℚ
  both_teams_score_rate : ℚ
deriving DecidableEq

/-- Python's banker's rounding (`round` with no digits): nearest integer,
halves to the even neighbour. -/
def roundHalfEven (q : ℚ) : ℤ :=
  let f := ⌊q⌋
  let r := q - f
  if r < 1/2 then f
  else if 1/2 < r then f + 1
  else if Even f then f else f + 1

/-- Python's `round(x, 2)`. -/
def round2 (q : ℚ) : ℚ := (roundHalfEven (q * 100) : ℚ) / 100

/-- Running totals accumulated by the loop of `get_team_stats`. -/
structure Tally where
  goals_scored : ℤ
  goals_conceded : ℤ
  half_time_wins : ℤ
  second_half_wins : ℤ
  both_teams_score : ℤ
deriving DecidableEq

/-- One iteration of the match loop in `get_team_stats` (src/app.py lines
110-130): the home branch when `home_team_id == team_id`, otherwise the away
branch when `away_team_id == team_id`, otherwise the match is skipped. -/
def tallyOne (team_id : ℕ) (acc : Tally) (m : Match) : Tally :=
  let home_second := m.ftHome - m.htHome
  let away_second := m.ftAway - m.htAway
  if m.homeId = team_id then
    { goals_scored := acc.goals_scored + m.ftHome
      goals_conceded := acc.goals_conceded + m.ftAway
      half_time_wins := acc.half_time_wins + (if m.htHome > m.htAway then 1 else 0)
      second_half_wins := acc.second_half_wins + (if home_second > away_second then 1 else 0)
      both_teams_score := acc.both_teams_score + (if m.ftHome > 0 ∧ m.ftAway > 0 then 1 else 0) }
  else if m.awayId = team_id then
    { goals_scored := acc.goals_scored + m.ftAway
      goals_conceded := acc.goals_conceded + m.ftHome
      half_time_wins := acc.half_time_wins + (if m.htAway > m.htHome then 1 else 0)
      second_half_wins := acc.second_half_wins + (if home_second > away_second then 1 else 0)
      both_teams_score := acc.both_teams_score + (if m.ftHome > 0 ∧ m.ftAway > 0 then 1 else 0) }
  else acc

/-- `get_team_stats(matches, team_id)` (src/app.py lines 104-137): empty
input short-circuits to the all-zero profile; otherwise the loop totals are
divided by `max(1, games)` and rounded to two decimals. -/
def get_team_stats (ms : List Match) (team_id : ℕ) : TeamStats :=
  if ms.isEmpty then
    { goals_avg_scored := 0, goals_avg_conceded := 0, half_time_win_rate := 0
      second_half_win_rate := 0, both_teams_score_rate := 0 }
  else
    let t := ms.foldl (tallyOne team_id) ⟨0, 0, 0, 0, 0⟩
    let games : ℚ := (ms.length : ℚ)
    let d : ℚ := max 1 games
    { goals_avg_scored := round2 ((t.goals_scored : ℚ) / d)
      goals_avg_conceded := round2 ((t.goals_conceded : ℚ) / d)
      half_time_win_rate := round2 ((t.half_time_wins : ℚ) / d)
      second_half_win_rate := round2 ((t.second_half_wins : ℚ) / d)
      both_teams_score_rate := round2 ((t.both_teams_score : ℚ) / d) }

/-- Python's `max({k1: v1, k2: v2, k3: v3}, key=...get)`: scan in insertion
order, replace the incumbent only on a strictly greater value. -/
def pyMax3 (k1 : String) (v1 : ℚ) (k2 : String) (v2 : ℚ) (k3 : String) (v3 : ℚ) : String :=
  if v2 > v1 then (if v3 > v2 then k3 else k2)
  else (if v3 > v1 then k3 else k1)

/-- The first key, in order, whose value attains the maximum of the three
values (the specification's reading of the argmax with insertion-order tie
breaking). -/
def firstArgmaxLabel (k1 : String) (v1 : ℚ) (k2 : String) (v2 : ℚ) (k3 : String) (v3 : ℚ) : String :=
  if v2 ≤ v1 then (if v3 ≤ v1 then k1 else k3)
  else (if v3 ≤ v2 then k2 else k3)

/-- `predict_result` (src/app.py lines 139-147), expressed on the two
already-computed statistics profiles. -/
def predict_result (home_stats away_stats : TeamStats) : String :=
  let home_strength := home_stats.goals_avg_scored + 1
  let away_strength := away_stats.goals_avg_scored + 1
  let total := home_strength + away_strength + 1
  pyMax3 "1" (home_strength / total) "X" (1 / total) "2" (away_strength / total)

/-- `predict_half_time_winner` (src/app.py lines 187-195): the code uses
only `half_time_win_rate` of each side, with the flat `0.1` draw weight. -/
def predict_half_time_winner (home_stats away_stats : TeamStats) : String :=
  let home_proba := home_stats.half_time_win_rate
  let away_proba := away_stats.half_time_win_rate
  let total := home_proba + away_proba + 1/10
  pyMax3 "1" (home_proba / total) "X" ((1/10) / total) "2" (away_proba / total)

/-- Written from the specification's words, for comparison with
`predict_half_time_winner`: the half-time-winner probabilities composed as
`1 - (1 - halfTimeWinRate) * (1 - secondHalfWinRate)` on each side. -/
def half_time_winner_formula_spec (home_stats away_stats : TeamStats) : String :=
  let home_prob := 1 - (1 - home_stats.half_time_win_rate) * (1 - home_stats.second_half_win_rate)
  let away_prob := 1 - (1 - away_stats.half_time_win_rate) * (1 - away_stats.second_half_win_rate)
  let total := home_prob + away_prob + 1/10
  pyMax3 "1" (home_prob / total) "X" ((1/10) / total) "2" (away_prob / total)

/-- `get_relevant_matches` (src/app.py lines 97-102) with the two
`get_team_matches` network fetches abstracted as `fetch`: head-to-head
filter on the match's away-side id, then the first five of each recent
set. -/
def get_relevant_matches (fetch : ℕ → List Match) (homeId awayId : ℕ) : List Match :=
  let home_matches := fetch homeId
  let away_matches := fetch awayId
  let head_to_head := home_matches.filter (fun m => m.awayId == awayId)
  head_to_head ++ home_matches.take 5 ++ away_matches.take 5

/-- Written from the claim's words, for comparison with
`get_relevant_matches`: part (a) keeps the matches of the home team's recent
set whose *opponent* (the participant that is not the home team) is the away
team, regardless of which side that opponent played on. -/
def relevant_matches_spec (fetch : ℕ → List Match) (homeId awayId : ℕ) : List Match :=
  let home_matches := fetch homeId
  let away_matches := fetch awayId
  let head_to_head := home_matches.filter
    (fun m => (if m.homeId == homeId then m.awayId else m.homeId) == awayId)
  head_to_head ++ home_matches.take 5 ++ away_matches.take 5

/-- A directory entry: provider id and crest URL, as stored per team name in
the cache. -/
structure TeamEntry where
  id : ℕ
  logo : String
deriving DecidableEq

/-- The payload of the team directory: the `teams` name-keyed map and the
`league_teams` map, both modelled as association lists. -/
structure Directory where
  teams : List (String × TeamEntry)
  league_teams : List (String × List String)
deriving DecidableEq

/-- A successfully parsed `teams_cache.json`: directory payload plus the
`last_updated` timestamp in whole seconds. -/
structure CacheData where
  dir : Directory
  last_updated : ℤ
deriving DecidableEq

/-- `CACHE_DURATION = timedelta(days=2)` (src/app.py line 29), in seconds. -/
def CACHE_DURATION : ℤ := 2 * 86400

/-- `get_teams` (src/app.py lines 69-79). The cache file is
`none` when absent, `some none` when present but unparseable (in the code
`json.load`, or the subsequent field accesses, raise — nothing catches the
exception), and `some (some c)` when it parses. `now` is the current time in
seconds; `refreshed` stands for the directory `update_teams_cache()` would
produce. The boolean records whether a refresh was triggered. -/
def get_teams (file : Option (Option CacheData)) (now : ℤ) (refreshed : Directory) :
    Except String (Directory × Bool) :=
  match file with
  | none => Except.ok (refreshed, true)
  | some none => Except.error "JSONDecodeError"
  | some (some cache) =>
    if now - cache.last_updated < CACHE_DURATION then Except.ok (cache.dir, false)
    else Except.ok (refreshed, true)

/-- The value of the `predictions` template variable after a POST:
Python `None`, a filled prediction dict, or the string `"no_data"`. -/
inductive PredOutcome
  | pnone
  | bundle
  | noData
deriving DecidableEq

/-- Outcome of the POST branch of `index` that the claims observe: the
`error` template variable, the `predictions` variable, and whether
`get_relevant_matches` (hence a match-history fetch) was reached. -/
structure PostResult where
  error : Option String
  predictions : PredOutcome
  fetched : Bool
deriving DecidableEq

/-- The POST branch of `index` (src/app.py lines 208-234): identical names
short-circuit to an error message; otherwise, only when *both* names are
keys of the directory does the handler fetch history and predict; a name
missing from the directory falls through the `elif` with no `else`, leaving
`error = None` and `predictions = None`. -/
def index_post (team_ids : List (String × TeamEntry)) (fetch : ℕ → List Match)
    (home_team away_team : String) : PostResult :=
  if home_team = away_team then
    { error := some "Veuillez sélectionner deux équipes différentes."
      predictions := PredOutcome.pnone, fetched := false }
  else
    match team_ids.lookup home_team, team_ids.lookup away_team with
    | some hentry, some aentry =>
      let historical := get_relevant_matches fetch hentry.id aentry.id
      if historical.isEmpty then
        { error := some "Pas assez de données historiques pour ce match."
          predictions := PredOutcome.noData, fetched := true }
      else
        { error := none, predictions := PredOutcome.bundle, fetched := true }
    | _, _ => { error := none, predictions := PredOutcome.pnone, fetched := false }

/-- Python's sequential `max` over three ordered entries returns the first
key, in insertion order, whose value attains the maximum. -/
theorem pyMax3_eq_firstArgmaxLabel (k1 k2 k3 : String) (v1 v2 v3 : ℚ) :
    pyMax3 k1 v1 k2 v2 k3 v3 = firstArgmaxLabel k1 v1 k2 v2 k3 v3 := by
  unfold pyMax3 firstArgmaxLabel
  rcases lt_or_le v1 v2 with h1 | h1
  · rw [if_pos h1, if_neg (not_le.mpr h1)]
    rcases lt_or_le v2 v3 with h2 | h2
    · rw [if_pos h2, if_neg (not_le.mpr h2)]
    · rw [if_neg (not_lt.mpr h2), if_pos h2]
  · rw [if_neg (not_lt.mpr h1), if_pos h1]
    rcases lt_or_le v1 v3 with h2 | h2
    · rw [if_pos h2, if_neg (not_le.mpr h2)]
    · rw [if_neg (not_lt.mpr h2), if_pos h2]

/-- C7: computing team statistics from an empty match list returns the
profile whose five fields are all exactly 0, as a normal value. -/
theorem c7_empty_matches_all_zero (team_id : ℕ) :
    (get_team_stats [] team_id).goals_avg_scored = 0 ∧
    (get_team_stats [] team_id).goals_avg_conceded = 0 ∧
    (get_team_stats [] team_id).half_time_win_rate = 0 ∧
    (get_team_stats [] team_id).second_half_win_rate = 0 ∧
    (get_team_stats [] team_id).both_teams_score_rate = 0 :=
  ⟨rfl, rfl, rfl, rfl, rfl⟩

/-- C5: whichever side the tallied team played — in particular the away
side — the second-half-win counter increments exactly when the *home*
side's second-half goals exceed the *away* side's second-half goals; the
comparison is never flipped to the tallied team's perspective. -/
theorem c5_second_half_comparison_not_flipped (team_id : ℕ) (acc : Tally) (m : Match)
    (h : m.homeId = team_id ∨ m.awayId = team_id) :
    (tallyOne team_id acc m).second_half_wins =
      acc.second_half_wins +
        (if m.ftHome - m.htHome > m.ftAway - m.htAway then 1 else 0) := by
  unfold tallyOne
  by_cases h1 : m.homeId = team_id
  · simp [h1]
  · rcases h with h | h2
    · exact absurd h h1
    · simp [h1, h2]

/-- Witness for C5: a match tallied from the away side (team 2 is the away
participant, home wins the second half 2-1 to 0-(-1)... concretely
full-time 2-0 after half-time 1-1), where the counter increments by the
home-vs-away comparison. -/
theorem c5_witness :
    ((⟨3, 2, 2, 0, 1, 1⟩ : Match).homeId = 2 ∨ (⟨3, 2, 2, 0, 1, 1⟩ : Match).awayId = 2) ∧
    (tallyOne 2 ⟨0, 0, 0, 0, 0⟩ ⟨3, 2, 2, 0, 1, 1⟩).second_half_wins = 1 :=
  ⟨Or.inr rfl, by
    have h := c5_second_half_comparison_not_flipped 2 ⟨0, 0, 0, 0, 0⟩ ⟨3, 2, 2, 0, 1, 1⟩
      (Or.inr rfl)
    simpa using h⟩

/-- C6 fails as stated: with the home team's recent set holding one reversed
fixture (the away team hosting the home team), the claim's part (a) — "all
matches in which the opponent is the away team" — keeps it, but the code's
head-to-head filter `match["awayTeam"]["id"] == awayId` drops it, so the two
lists differ. -/
theorem c6_counterexample :
    get_relevant_matches (fun tid => if tid = 1 then [⟨2, 1, 0, 0, 0, 0⟩] else []) 1 2 ≠
      relevant_matches_spec (fun tid => if tid = 1 then [⟨2, 1, 0, 0, 0, 0⟩] else []) 1 2 := by
  decide

/-- C6 amended: the relevant-match list is the concatenation, in order and
without deduplication, of the matches of the home team's recent set whose
away-side participant is the away team (uncapped), the first 5 of the home
team's recent set, and the first 5 of the away team's recent set; with 3
such head-to-head matches, 8 home recent matches and 6 away recent matches
its length is 3 + 5 + 5 = 13. -/
theorem c6_relevant_matches_length (fetch : ℕ → List Match) (homeId awayId : ℕ)
    (h1 : ((fetch homeId).filter (fun m => m.awayId == awayId)).length = 3)
    (h2 : (fetch homeId).length = 8) (h3 : (fetch awayId).length = 6) :
    (get_relevant_matches fetch homeId awayId).length = 13 := by
  unfold get_relevant_matches
  simp only [List.length_append, List.length_take, h1, h2, h3]
  decide

/-- Witness for C6: a concrete fetch with 3 head-to-head entries among 8
home recent matches and 6 away recent matches yields a 13-element list. -/
theorem c6_witness :
    (get_relevant_matches
      (fun tid =>
        if tid = 1 then
          [⟨1, 2, 0, 0, 0, 0⟩, ⟨1, 2, 0, 0, 0, 0⟩, ⟨1, 2, 0, 0, 0, 0⟩, ⟨1, 3, 0, 0, 0, 0⟩,
           ⟨1, 3, 0, 0, 0, 0⟩, ⟨1, 3, 0, 0, 0, 0⟩, ⟨1, 3, 0, 0, 0, 0⟩, ⟨1, 3, 0, 0, 0, 0⟩]
        else if tid = 2 then
          [⟨2, 4, 0, 0, 0, 0⟩, ⟨2, 4, 0, 0, 0, 0⟩, ⟨2, 4, 0, 0, 0, 0⟩, ⟨2, 4, 0, 0, 0, 0⟩,
           ⟨2, 4, 0, 0, 0, 0⟩, ⟨2, 4, 0, 0, 0, 0⟩]
        else []) 1 2).length = 13 :=
  c6_relevant_matches_length _ 1 2 (by decide) (by decide) (by decide)

/-- C3 fails as stated: a request whose away name is absent from the
directory satisfies the claim's premise, yet the handler reports no error at
all — the `elif` has no `else`, so `error` stays `None` (the identical-name
half of the claim does hold; see the amended theorem). -/
theorem c3_counterexample :
    ([("A", (⟨1, "crest"⟩ : TeamEntry))].lookup "B" = (none : Option TeamEntry)) ∧
    (index_post [("A", ⟨1, "crest"⟩)] (fun _ => []) "A" "B").error = none := by
  constructor <;> rfl

/-- C3 amended: identical names are rejected with the validation message
before any fetch and with no prediction; a name absent from the directory
likewise causes no fetch and no prediction, but *silently* — no error is
reported. -/
theorem c3_validation_behaviour (team_ids : List (String × TeamEntry))
    (fetch : ℕ → List Match) (home_team away_team : String) :
    (home_team = away_team →
      index_post team_ids fetch home_team away_team =
        ⟨some "Veuillez sélectionner deux équipes différentes.", PredOutcome.pnone, false⟩) ∧
    (home_team ≠ away_team →
      team_ids.lookup home_team = none ∨ team_ids.lookup away_team = none →
      index_post team_ids fetch home_team away_team = ⟨none, PredOutcome.pnone, false⟩) := by
  constructor
  · intro h
    unfold index_post
    rw [if_pos h]
  · intro hne habs
    unfold index_post
    rw [if_neg hne]
    rcases hh : team_ids.lookup home_team with _ | he
    · rcases ha : team_ids.lookup away_team with _ | ae <;> rfl
    · rcases ha : team_ids.lookup away_team with _ | ae
      · rfl
      · rw [hh, ha] at habs
        rcases habs with h | h <;> simp at h

/-- Witness for C3 amended: both implications applied at concrete inputs. -/
theorem c3_witness :
    index_post [] (fun _ => []) "A" "A" =
      ⟨some "Veuillez sélectionner deux équipes différentes.", PredOutcome.pnone, false⟩ ∧
    index_post [("A", ⟨1, "crest"⟩)] (fun _ => []) "A" "B" =
      ⟨none, PredOutcome.pnone, false⟩ :=
  ⟨(c3_validation_behaviour [] (fun _ => []) "A" "A").1 rfl,
   (c3_validation_behaviour [("A", ⟨1, "crest"⟩)] (fun _ => []) "A" "B").2
     (by decide) (Or.inr rfl)⟩

/-- C4 fails as stated: an existing but unparseable cache file makes
`get_teams` propagate the parse error, while a missing file triggers a
refresh and succeeds — corruption is *not* treated like absence. -/
theorem c4_counterexample :
    get_teams (some none) 0 ⟨[], []⟩ = Except.error "JSONDecodeError" ∧
    get_teams none 0 ⟨[], []⟩ = Except.ok (⟨[], []⟩, true) :=
  ⟨rfl, rfl⟩

/-- C4 amended: a missing cache file triggers a refresh and returns its
result without error, but an unreadable or malformed cache file makes the
load fail — the parse error propagates to the caller instead of forcing a
refresh. -/
theorem c4_corrupt_cache_raises (now : ℤ) (fresh : Directory) :
    get_teams none now fresh = Except.ok (fresh, true) ∧
    get_teams (some none) now fresh = Except.error "JSONDecodeError" :=
  ⟨rfl, rfl⟩

/-- C9: one second past the TTL the cached directory is refreshed; one
second before the TTL it is returned unchanged with no refresh. -/
theorem c9_ttl_boundary (cache : CacheData) (now : ℤ) (fresh : Directory) :
    (cache.last_updated = now - CACHE_DURATION - 1 →
      get_teams (some (some cache)) now fresh = Except.ok (fresh, true)) ∧
    (cache.last_updated = now - CACHE_DURATION + 1 →
      get_teams (some (some cache)) now fresh = Except.ok (cache.dir, false)) := by
  constructor
  · intro h
    simp only [get_teams]
    rw [h, if_neg (by omega)]
  · intro h
    simp only [get_teams]
    rw [h, if_pos (by omega)]

/-- Witness for C9: with the TTL of two days (172800 s) and `now = 0`, a
cache stamped −172801 is refreshed and a cache stamped −172799 is served
unchanged. -/
theorem c9_witness :
    get_teams (some (some ⟨⟨[("F", ⟨5, "l"⟩)], []⟩, -172801⟩)) 0 ⟨[], []⟩ =
      Except.ok (⟨[], []⟩, true) ∧
    get_teams (some (some ⟨⟨[("F", ⟨5, "l"⟩)], []⟩, -172799⟩)) 0 ⟨[], []⟩ =
      Except.ok (⟨[("F", ⟨5, "l"⟩)], []⟩, false) :=
  ⟨(c9_ttl_boundary ⟨⟨[("F", ⟨5, "l"⟩)], []⟩, -172801⟩ 0 ⟨[], []⟩).1 (by decide),
   (c9_ttl_boundary ⟨⟨[("F", ⟨5, "l"⟩)], []⟩, -172799⟩ 0 ⟨[], []⟩).2 (by decide)⟩

/-- C8: with non-negative scoring averages both strengths are at least 1
while the draw weight is exactly 1, so the sequential argmax never settles
on "X": the 1X2 prediction is always "1" or "2". -/
theorem c8_result_never_draw (home_stats away_stats : TeamStats)
    (hh : 0 ≤ home_stats.goals_avg_scored) (ha : 0 ≤ away_stats.goals_avg_scored) :
    predict_result home_stats away_stats = "1" ∨ predict_result home_stats away_stats = "2" := by
  unfold predict_result pyMax3
  have htot : (0 : ℚ) <
      home_stats.goals_avg_scored + 1 + (away_stats.goals_avg_scored + 1) + 1 := by
    linarith
  rw [if_neg (by rw [gt_iff_lt, div_lt_div_iff_of_pos_right htot]; linarith)]
  split_ifs <;> simp

/-- Witness for C8: profiles with averages 2 and 1. -/
theorem c8_witness :
    (0 : ℚ) ≤ 2 ∧ (0 : ℚ) ≤ 1 ∧
      (predict_result ⟨2, 1, 0, 0, 0⟩ ⟨1, 3/2, 0, 0, 0⟩ = "1" ∨
       predict_result ⟨2, 1, 0, 0, 0⟩ ⟨1, 3/2, 0, 0, 0⟩ = "2") :=
  ⟨by norm_num, by norm_num,
   c8_result_never_draw ⟨2, 1, 0, 0, 0⟩ ⟨1, 3/2, 0, 0, 0⟩ (by norm_num) (by norm_num)⟩

/-- C1 fails as stated: on profiles where the home side never led at half
time but often won second halves, the specification's composed formula
`1 - (1-halfTimeWinRate)*(1-secondHalfWinRate)` picks "1" while the code —
which uses only `half_time_win_rate` — picks "2". -/
theorem c1_counterexample :
    predict_half_time_winner ⟨0, 0, 0, 9/10, 0⟩ ⟨0, 0, 1/2, 0, 0⟩ = "2" ∧
    half_time_winner_formula_spec ⟨0, 0, 0, 9/10, 0⟩ ⟨0, 0, 1/2, 0, 0⟩ = "1" := by
  constructor <;> norm_num [predict_half_time_winner, half_time_winner_formula_spec, pyMax3]

/-- C1 amended: the half-time-winner label is the insertion-order argmax of
the probabilities `homeProb/total`, `0.1/total`, `awayProb/total` where
`homeProb` and `awayProb` are the two teams' half-time win rates taken
directly (the second-half win rates play no part) and
`total = homeProb + awayProb + 0.1`. -/
theorem c1_half_time_winner_argmax (home_stats away_stats : TeamStats) :
    predict_half_time_winner home_stats away_stats =
      firstArgmaxLabel
        "1" (home_stats.half_time_win_rate /
              (home_stats.half_time_win_rate + away_stats.half_time_win_rate + 1/10))
        "X" ((1/10) /
              (home_stats.half_time_win_rate + away_stats.half_time_win_rate + 1/10))
        "2" (away_stats.half_time_win_rate /
              (home_stats.half_time_win_rate + away_stats.half_time_win_rate + 1/10)) := by
  unfold predict_half_time_winner
  exact pyMax3_eq_firstArgmaxLabel _ _ _ _ _ _

/-- The Poisson probability mass function `scipy.stats.poisson.pmf(k, mu)`,
over the reals: `exp(-mu) * mu^k / k!`. -/
noncomputable def poisson_pmf (k : ℕ) (mu : ℝ) : ℝ :=
  Real.exp (-mu) * mu ^ k / (Nat.factorial k : ℝ)

/-- `scipy.stats.poisson.cdf(2.5, mu)`: the Poisson CDF at a non-integer
point sums the mass of all integers up to the floor, here 0, 1 and 2. -/
noncomputable def poisson_cdf_2_5 (mu : ℝ) : ℝ :=
  poisson_pmf 0 mu + poisson_pmf 1 mu + poisson_pmf 2 mu

/-- The over-2.5-goals probability of `predict_over_under_2_5` (src/app.py
line 171): `1 - poisson.cdf(2.5, total_goals)`. -/
noncomputable def over_2_5_probability (total_goals : ℝ) : ℝ :=
  1 - poisson_cdf_2_5 total_goals

/-- The both-teams-score probability of `predict_both_teams_score`
(src/app.py lines 177-179): `1 - pmf(0, homeGoals) * pmf(0, awayGoals)`. -/
noncomputable def btts_probability (home_goals away_goals : ℝ) : ℝ :=
  1 - poisson_pmf 0 home_goals * poisson_pmf 0 away_goals

/-- The zero-count Poisson mass is `exp(-mu)`. -/
theorem poisson_pmf_zero (mu : ℝ) : poisson_pmf 0 mu = Real.exp (-mu) := by
  simp [poisson_pmf]

/-- C2 fails as stated: with `homeGoals = 0` and `awayGoals = 1` one of the
expected-goal values is 0, yet the both-teams-score probability is
`1 - exp(-1) ≠ 0` — `PMF(0; 0) = 1` collapses only the one factor. -/
theorem c2_counterexample :
    ((0 : ℝ) = 0 ∨ (1 : ℝ) = 0) ∧ btts_probability 0 1 ≠ 0 := by
  refine ⟨Or.inl rfl, ?_⟩
  unfold btts_probability
  rw [poisson_pmf_zero, poisson_pmf_zero, neg_zero, Real.exp_zero, one_mul]
  have h : Real.exp (-1 : ℝ) < 1 := Real.exp_lt_one_iff.mpr (by norm_num)
  intro hc
  linarith

/-- C2 amended: for non-negative expected-goal inputs the both-teams-score
probability lies in `[0, 1]`, and it equals 0 when *both* expected-goal
values are 0. -/
theorem c2_btts_range (hg ag : ℝ) (hh : 0 ≤ hg) (ha : 0 ≤ ag) :
    0 ≤ btts_probability hg ag ∧ btts_probability hg ag ≤ 1 ∧
      (hg = 0 → ag = 0 → btts_probability hg ag = 0) := by
  unfold btts_probability
  rw [poisson_pmf_zero, poisson_pmf_zero]
  have h1 : Real.exp (-hg) ≤ 1 := Real.exp_le_one_iff.mpr (by linarith)
  have h2 : Real.exp (-ag) ≤ 1 := Real.exp_le_one_iff.mpr (by linarith)
  have h3 : 0 < Real.exp (-hg) := Real.exp_pos _
  have h4 : 0 < Real.exp (-ag) := Real.exp_pos _
  refine ⟨by nlinarith, by nlinarith, ?_⟩
  intro e1 e2
  rw [e1, e2, neg_zero, Real.exp_zero, one_mul]
  ring

/-- Witness for C2 amended: both expected-goal values 0. -/
theorem c2_witness :
    (0 : ℝ) ≤ 0 ∧
      (0 ≤ btts_probability 0 0 ∧ btts_probability 0 0 ≤ 1 ∧
        ((0 : ℝ) = 0 → (0 : ℝ) = 0 → btts_probability 0 0 = 0)) :=
  ⟨le_refl 0, c2_btts_range 0 0 le_rfl le_rfl⟩

/-- The over-2.5 probability written in closed form. -/
theorem over_2_5_probability_eq :
    over_2_5_probability = fun x : ℝ => 1 - Real.exp (-x) * (1 + x + x ^ 2 / 2) := by
  funext x
  unfold over_2_5_probability poisson_cdf_2_5 poisson_pmf
  simp [Nat.factorial]
  ring

/-- Derivative of the over-2.5 probability: `exp(-x) * x² / 2`. -/
theorem hasDerivAt_over_2_5 (x : ℝ) :
    HasDerivAt (fun y : ℝ => 1 - Real.exp (-y) * (1 + y + y ^ 2 / 2))
      (Real.exp (-x) * (x ^ 2 / 2)) x := by
  have h1 : HasDerivAt (fun y : ℝ => -y) (-1) x := hasDerivAt_neg' x
  have h2 : HasDerivAt (fun y : ℝ => Real.exp (-y)) (Real.exp (-x) * (-1)) x := h1.exp
  have h3 : HasDerivAt (fun y : ℝ => 1 + y + y ^ 2 / 2)
      (0 + 1 + ((2 : ℕ) : ℝ) * x ^ (2 - 1) / 2) x :=
    ((hasDerivAt_const x (1 : ℝ)).add (hasDerivAt_id' x)).add ((hasDerivAt_pow 2 x).div_const 2)
  have h4 := (hasDerivAt_const x (1 : ℝ)).sub (h2.mul h3)
  convert h4 using 1
  push_cast
  ring

/-- C10: the reported over-2.5-goals probability is monotone in the
expected total-goals parameter. -/
theorem c10_over_2_5_monotone (t1 t2 : ℝ) (h : t1 ≤ t2) :
    over_2_5_probability t1 ≤ over_2_5_probability t2 := by
  rw [over_2_5_probability_eq]
  have hdiff : Differentiable ℝ (fun y : ℝ => 1 - Real.exp (-y) * (1 + y + y ^ 2 / 2)) :=
    fun x => (hasDerivAt_over_2_5 x).differentiableAt
  have hmono : Monotone (fun y : ℝ => 1 - Real.exp (-y) * (1 + y + y ^ 2 / 2)) := by
    refine monotone_of_deriv_nonneg hdiff ?_
    intro x
    rw [(hasDerivAt_over_2_5 x).deriv]
    positivity
  exact hmono h

/-- Witness for C10: expected totals 1 and 2. -/
theorem c10_witness :
    (1 : ℝ) ≤ 2 ∧ over_2_5_probability 1 ≤ over_2_5_probability 2 :=
  ⟨by norm_num, c10_over_2_5_monotone 1 2 (by norm_num)⟩

end App
